import Mathlib

/-!
Verification development for the CanTrip travel-planning engine.

The definitions below are a shallow embedding of the repository's core:
the itinerary scheduler (backend/langgraph_agent/tools/planner.py), the
intent classifier and tool-dispatch node of the orchestration graph
(backend/langgraph_agent/graph_enhanced.py), and the model router
(backend/langgraph_agent/model_router.py).  Python floats that only ever
hold exact decimal amounts (costs, ratings, temperatures) are modelled as
rationals; clock times are minutes since midnight; calendar dates are
(year, month, day) triples with the standard civil-calendar serial-day
conversion standing in for datetime subtraction.
-/

namespace Cantrip

/-! ## String helpers

Models of the Python operations used by the source: substring membership
(the Python keyword test on strings), str.lower, and str.title. -/

/-- One list of characters is a prefix of another (character-wise equality). -/
def charsPrefix : List Char → List Char → Bool
  | [], _ => true
  | _ :: _, [] => false
  | a :: as, b :: bs => a = b && charsPrefix as bs

/-- The first list occurs contiguously inside the second. -/
def charsSub (needle : List Char) : List Char → Bool
  | [] => needle.isEmpty
  | c :: rest => charsPrefix needle (c :: rest) || charsSub needle rest

/-- Python substring membership needle in hay. -/
def strContains (needle hay : String) : Bool :=
  charsSub needle.data hay.data

/-- Python str.lower (ASCII), character by character. -/
def strLower (s : String) : String :=
  ⟨s.data.map Char.toLower⟩

/-- Helper for titlecase: uppercase every alphabetic character that follows a
non-alphabetic one, lowercase the rest, tracking whether the previous
character was alphabetic. -/
def titlecaseGo : Bool → List Char → List Char
  | _, [] => []
  | prevAlpha, c :: rest =>
    (if c.isAlpha && !prevAlpha then c.toUpper
     else if c.isAlpha && prevAlpha then c.toLower
     else c) :: titlecaseGo c.isAlpha rest

/-- Python str.title (ASCII): capitalize the first letter of every
alphabetic run, lowercase the rest. -/
def titlecase (s : String) : String :=
  ⟨titlecaseGo false s.data⟩

/-! ## Calendar dates

planner.py parses "%Y-%m-%d" strings with datetime.strptime and subtracts
them.  We model a successfully parsed, well-formed date as a
year/month/day triple; the serial-day number (rata die, days since
1970-01-01, the standard civil-calendar conversion) makes datetime
subtraction an integer subtraction.  The strptime failure path of
_calculate_duration (malformed string, default duration 7) is outside the
model: all claims speak of well-formed dates. -/

structure Date where
  year : Int
  month : Int
  day : Int
deriving Repr, DecidableEq

/-- Serial day number of a civil date (days since 1970-01-01). -/
def Date.toRataDie (dt : Date) : Int :=
  let y : Int := if dt.month ≤ 2 then dt.year - 1 else dt.year
  let era : Int := (if 0 ≤ y then y else y - 399) / 400
  let yoe : Int := y - era * 400
  let mp : Int := (dt.month + 9) % 12
  let doy : Int := (153 * mp + 2) / 5 + dt.day - 1
  let doe : Int := yoe * 365 + yoe / 4 - yoe / 100 + doy
  era * 146097 + doe - 719468

/-- PlanningTool._calculate_duration on well-formed dates:
(end - start).days + 1. -/
def calculate_duration (start_date end_date : Date) : Int :=
  end_date.toRataDie - start_date.toRataDie + 1

/-! ## Planner data model (planner.py) -/

/-- A candidate activity record, as produced by
PlanningTool._get_available_activities. -/
structure Activity where
  name : String
  type_ : String
  duration : Nat
  cost : ℚ
  location : String
  rating : ℚ
  category : String
  hours : String
  description : String
deriving Repr, DecidableEq

/-- A scheduled activity record, as produced by
PlanningTool._schedule_activities.  Clock times are minutes since
midnight (the source renders them as "%H:%M" strings). -/
structure ScheduledActivity where
  name : String
  type_ : String
  description : String
  location : String
  start_time : Nat
  end_time : Nat
  duration : Nat
  cost : ℚ
  category : String
  rating : ℚ
deriving Repr, DecidableEq

/-- A meal record, as produced by PlanningTool._plan_meals. -/
structure Meal where
  type_ : String
  name : String
  location : String
  time : String
  cost : ℚ
  cuisine : String
  reservation : Bool
deriving Repr, DecidableEq

/-- A transport leg, as produced by PlanningTool._plan_transportation. -/
structure TransportLeg where
  type_ : String
  from_ : String
  to_ : String
  start_time : Nat
  end_time : Nat
  cost : ℚ
  duration : Nat
deriving Repr, DecidableEq

/-- One day plan.  The notes field of the source (a presentation string
assembled by _generate_day_notes) is not modelled. -/
structure DayPlan where
  day : Nat
  date : Int
  activities : List ScheduledActivity
  meals : List Meal
  transport : List TransportLeg
  total_cost : ℚ
deriving Repr, DecidableEq

/-- The itinerary record returned by PlanningTool.create_itinerary.  The
summary and created_at fields (presentation strings) are not modelled. -/
structure Itinerary where
  city : String
  start_date : Date
  end_date : Date
  duration : Int
  group_size : Int
  pace : String
  accommodation : String
  total_cost : ℚ
  days : List DayPlan
deriving Repr, DecidableEq

/-- The weather dict passed into the scheduler: a condition string and a
temperature, either of which may be absent.  An absent dict (Python
falsy empty dict) is Option.none at the use sites. -/
structure WeatherData where
  condition : Option String
  temperature : Option ℚ
deriving Repr, DecidableEq

/-! ## Planner functions (planner.py) -/

/-- The static sample pool of PlanningTool._get_available_activities. -/
def sample_activities : List Activity :=
  [ { name := "City Museum", type_ := "museum", duration := 120, cost := 25,
      location := "Downtown", rating := 4.5, category := "cultural",
      hours := "9:00-17:00",
      description := "Interesting museum about city history" },
    { name := "Central Park", type_ := "park", duration := 90, cost := 0,
      location := "City Center", rating := 4.3, category := "outdoor",
      hours := "6:00-22:00",
      description := "Beautiful city park for relaxation" },
    { name := "Local Restaurant", type_ := "restaurant", duration := 60,
      cost := 45, location := "Downtown", rating := 4.2, category := "food",
      hours := "11:00-23:00", description := "Authentic local cuisine" },
    { name := "Shopping District", type_ := "shopping", duration := 90,
      cost := 0, location := "Downtown", rating := 4.0,
      category := "shopping", hours := "10:00-21:00",
      description := "Popular shopping area with various stores" } ]

/-- PlanningTool._get_available_activities: the sample pool filtered by
budget and (when any are given) interests, an interest matching when it
is a substring of the activity category, case-insensitively. -/
def get_available_activities (city : String) (interests : List String)
    (budget : ℚ) : List Activity :=
  sample_activities.filter (fun a =>
    decide (a.cost ≤ budget) &&
      (interests.isEmpty ||
        interests.any (fun i => strContains (strLower i) (strLower a.category))))

/-- PlanningTool._get_max_activities_for_pace. -/
def get_max_activities_for_pace (pace : String) : Nat :=
  if strLower pace = "relaxed" then 3
  else if strLower pace = "moderate" then 5
  else if strLower pace = "intense" then 8
  else 5

/-- PlanningTool._is_weather_compatible: an empty weather dict is always
compatible; otherwise an outdoor activity is rejected when the lowercased
condition contains rain or snow, or the temperature (default 20) is below
5 or above 35. -/
def is_weather_compatible (activity : Activity)
    (weather : Option WeatherData) : Bool :=
  match weather with
  | none => true
  | some w =>
    let condition := strLower (w.condition.getD (""))
    let temperature := w.temperature.getD 20
    if activity.category = "outdoor" then
      if strContains ("rain") condition || strContains ("snow") condition then
        false
      else if temperature < 5 || 35 < temperature then false
      else true
    else true

/-- Insert an activity into a rating-descending list, after every element
of greater or equal rating. -/
def insert_by_rating (a : Activity) : List Activity → List Activity
  | [] => [a]
  | b :: rest =>
    if decide (b.rating ≤ a.rating) then a :: b :: rest
    else b :: insert_by_rating a rest

/-- Stable sort by rating descending (extensionally the Python
sorted(activities, key=rating, reverse=True), which is a stable sort:
ties keep original pool order). -/
def sort_by_rating_desc : List Activity → List Activity
  | [] => []
  | a :: rest => insert_by_rating a (sort_by_rating_desc rest)

/-- The greedy loop of PlanningTool._select_activities_for_day over the
rating-sorted list: stop once the accepted count reaches the cap, accept
an activity when it fits the remaining budget and is weather compatible,
deducting its cost. -/
def select_from (weather : Option WeatherData) (max_activities : Nat) :
    List Activity → Nat → ℚ → List Activity
  | [], _, _ => []
  | a :: rest, count, remaining =>
    if max_activities ≤ count then []
    else if decide (a.cost ≤ remaining) && is_weather_compatible a weather then
      a :: select_from weather max_activities rest (count + 1)
        (remaining - a.cost)
    else select_from weather max_activities rest count remaining

/-- PlanningTool._select_activities_for_day. -/
def select_activities_for_day (activities : List Activity)
    (max_activities : Nat) (budget : ℚ)
    (weather : Option WeatherData) : List Activity :=
  select_from weather max_activities (sort_by_rating_desc activities) 0 budget

/-- The day starts at 9:00 (minutes since midnight). -/
def day_start_minutes : Nat := 9 * 60

/-- Build the scheduled record of one activity. -/
def mk_scheduled (a : Activity) (start_time end_time : Nat) :
    ScheduledActivity :=
  { name := a.name, type_ := a.type_, description := a.description,
    location := a.location, start_time := start_time, end_time := end_time,
    duration := a.duration, cost := a.cost, category := a.category,
    rating := a.rating }

/-- The loop of PlanningTool._schedule_activities: each activity runs for
its duration; between two consecutive activities lie a 30-minute break
(after each non-final activity) and 30 minutes of travel (before each
non-first activity). -/
def schedule_from : List Activity → Nat → List ScheduledActivity
  | [], _ => []
  | a :: rest, current_time =>
    let end_time := current_time + a.duration
    mk_scheduled a current_time end_time ::
      schedule_from rest (end_time + 30 + 30)

/-- PlanningTool._schedule_activities, starting at 9:00. -/
def schedule_activities (activities : List Activity) :
    List ScheduledActivity :=
  schedule_from activities day_start_minutes

/-- PlanningTool._plan_meals: three fixed meal slots, per-person costs 15,
25 and 35 scaled by group size. -/
def plan_meals (city : String) (date : Int) (budget : ℚ)
    (group_size : Int) : List Meal :=
  [ { type_ := "breakfast", name := "Breakfast at Local Restaurant",
      location := "Downtown " ++ city, time := "08:00",
      cost := 15 * (group_size : ℚ), cuisine := "Local specialties",
      reservation := false },
    { type_ := "lunch", name := "Lunch at Local Restaurant",
      location := "Downtown " ++ city, time := "12:30",
      cost := 25 * (group_size : ℚ), cuisine := "Local specialties",
      reservation := false },
    { type_ := "dinner", name := "Dinner at Local Restaurant",
      location := "Downtown " ++ city, time := "19:00",
      cost := 35 * (group_size : ℚ), cuisine := "Local specialties",
      reservation := false } ]

/-- Per-ride cost of a transport mode (planning_rules transport_modes). -/
def transport_mode_cost (mode : String) : ℚ :=
  if mode = "walking" then 0
  else if mode = "public_transit" then 3.5
  else if mode = "taxi" then 15
  else if mode = "uber" then 12
  else 0

/-- PlanningTool._is_walking_distance: same named location. -/
def is_walking_distance (a b : ScheduledActivity) : Bool :=
  decide (a.location = b.location)

/-- PlanningTool._plan_transportation: one leg between each consecutive
pair of scheduled activities, walking when both share a location,
otherwise public transit. -/
def plan_transportation : List ScheduledActivity → List TransportLeg
  | current :: next_activity :: rest =>
    let mode :=
      if is_walking_distance current next_activity then ("walking")
      else ("public_transit")
    { type_ := mode, from_ := current.location, to_ := next_activity.location,
      start_time := current.end_time, end_time := next_activity.start_time,
      cost := transport_mode_cost mode, duration := 30 } ::
      plan_transportation (next_activity :: rest)
  | _ => []

/-- PlanningTool._calculate_day_cost: activity costs plus meal costs plus
transport costs scaled by group size. -/
def calculate_day_cost (activities : List ScheduledActivity)
    (meals : List Meal) (transport : List TransportLeg)
    (group_size : Int) : ℚ :=
  (activities.map ScheduledActivity.cost).sum +
    (meals.map Meal.cost).sum +
    (transport.map TransportLeg.cost).sum * (group_size : ℚ)

/-- PlanningTool._plan_day (nothing in the modelled body can throw, so the
except fallback of the source is unreachable here). -/
def plan_day (city : String) (day : Nat) (date : Int)
    (activities : List Activity) (budget : ℚ) (group_size : Int)
    (pace : String) (weather : Option WeatherData) : DayPlan :=
  let max_activities := get_max_activities_for_pace pace
  let selected :=
    select_activities_for_day activities max_activities budget weather
  let scheduled := schedule_activities selected
  let meals := plan_meals city date budget group_size
  let transport := plan_transportation scheduled
  let day_cost := calculate_day_cost scheduled meals transport group_size
  { day := day, date := date, activities := scheduled, meals := meals,
    transport := transport, total_cost := day_cost }

/-- PlanningTool.create_itinerary on well-formed dates: one day plan per
day of range(1, duration + 1), the same candidate pool and weather passed
to every day, trip cost accumulated over the day plans. -/
def create_itinerary (city : String) (start_date end_date : Date)
    (interests : List String) (budget : ℚ) (group_size : Int)
    (pace : String) (accommodation : String)
    (weather : Option WeatherData) : Itinerary :=
  let duration := calculate_duration start_date end_date
  let activities := get_available_activities city interests budget
  let daily_plans := (List.range duration.toNat).map (fun i =>
    plan_day city (i + 1) (start_date.toRataDie + i) activities budget
      group_size pace weather)
  let total_cost := daily_plans.foldl (fun acc d => acc + d.total_cost) 0
  { city := city, start_date := start_date, end_date := end_date,
    duration := duration, group_size := group_size, pace := pace,
    accommodation := accommodation, total_cost := total_cost,
    days := daily_plans }

/-! ## Intent classifier and city detection (graph_enhanced.py) -/

/-- The gazetteer of detect_city_from_message. -/
def canadian_cities : List String :=
  [ "toronto", "vancouver", "montreal", "calgary", "ottawa", "edmonton",
    "winnipeg", "quebec city", "hamilton", "kitchener", "london", "victoria",
    "halifax", "oshawa", "windsor", "saskatoon", "regina", "sherbrooke",
    "barrie", "kelowna", "abbotsford", "kingston", "trois-rivières",
    "guelph", "cambridge", "whitby", "ajax", "milton", "st. catharines",
    "brantford", "thunder bay", "saint john", "peterborough", "red deer",
    "lethbridge", "kamloops", "nanaimo", "prince george", "chilliwack",
    "vernon", "fort mcmurray", "sarnia", "belleville", "charlottetown",
    "fredericton", "moncton", "saint john", "yellowknife", "whitehorse",
    "iqaluit", "banff", "whistler", "niagara falls", "jasper", "victoria" ]

/-- detect_city_from_message: the first gazetteer entry that is a
substring of the lowercased message, returned in title case. -/
def detect_city_from_message (message : String) : Option String :=
  let message_lower := strLower message
  (canadian_cities.find? (fun city => strContains city message_lower)).map
    titlecase

def event_keywords : List String :=
  [ "event", "events", "concert", "show", "game", "sports", "festival",
    "happening", "this weekend", "tonight" ]

def weather_keywords : List String :=
  [ "weather", "temperature", "climate", "rain", "snow", "sunny",
    "forecast", "hot", "cold" ]

def attraction_keywords : List String :=
  [ "attraction", "attractions", "museum", "gallery", "landmark",
    "sightseeing", "visit", "see", "explore" ]

def planning_keywords : List String :=
  [ "plan", "itinerary", "schedule", "trip", "visit", "go to", "travel",
    "day", "weekend" ]

def recommendation_keywords : List String :=
  [ "recommend", "suggest", "best", "popular", "good", "where to",
    "what to do" ]

/-- The output of analyze_intent_node that later stages read: the intent
tag, the list of tools to call, and the detected city. -/
structure IntentResult where
  intent : String
  tools_needed : List String
  city_detected : Option String
deriving Repr, DecidableEq

/-- analyze_intent_node: test the lowercased message against the five
keyword sets in order (events, weather, attractions, planner,
recommendations); every matching category appends its tool and overwrites
the intent, so the last matching category wins; when no category matched
but a city was detected, fall back to a general city inquiry with
recommendations and attractions. -/
def analyze_intent (message : String) : IntentResult :=
  let m := strLower message
  let city := detect_city_from_message message
  let s0 : List String × String := ([], "general_question")
  let s1 := if event_keywords.any (fun w => strContains w m) then
    (s0.1 ++ [("events")], ("events_inquiry")) else s0
  let s2 := if weather_keywords.any (fun w => strContains w m) then
    (s1.1 ++ [("weather")], ("weather_inquiry")) else s1
  let s3 := if attraction_keywords.any (fun w => strContains w m) then
    (s2.1 ++ [("attractions")], ("attractions_inquiry")) else s2
  let s4 := if planning_keywords.any (fun w => strContains w m) then
    (s3.1 ++ [("planner")], ("planning_inquiry")) else s3
  let s5 := if recommendation_keywords.any (fun w => strContains w m) then
    (s4.1 ++ [("recommendations")], ("recommendations_inquiry")) else s4
  let s6 := if city.isSome && s5.1.isEmpty then
    ([("recommendations"), ("attractions")], ("general_city_inquiry")) else s5
  { intent := s6.2, tools_needed := s6.1, city_detected := city }

/-! ## Tool dispatch (call_tools_node of graph_enhanced.py)

The adapters themselves are external collaborators; each outcome (a
successful payload or a raised exception) is an oracle input.  Payloads
are abstract: only which keys the node records, and whether the stored
plan is a real itinerary, matter to the claims. -/

/-- Outcome of each adapter call for one run: Except.error is a raised
exception inside the try of that branch. -/
structure AdapterBehavior where
  events : Except Unit (List String)
  weather : Except Unit (String × String)
  attractions : Except Unit (List String)
  recommendations : Except Unit (List String)
deriving Repr

/-- A value stored in the tool_results dict. -/
inductive ToolResult where
  | events (records : List String) : ToolResult
  | weather (data : Option (String × String)) : ToolResult
  | attractions (records : List String) : ToolResult
  | recommendations (records : List String) : ToolResult
  | plan (itinerary : Option Itinerary) : ToolResult
deriving Repr, DecidableEq

/-- Python truthiness of the Optional[str] city in the branch guards:
None and the empty string are falsy. -/
def cityTruthy : Option String → Bool
  | none => false
  | some s => decide (s ≠ "")

/-- call_tools_node: each branch runs when its tool is required and a
city is present, storing the adapter payload under the tool name (an
empty or fallback value when the adapter raised).  The planner branch
calls create_itinerary with keyword arguments (city, duration, budget,
interests) that do not match its signature (city, start_date, end_date,
interests, budget, group_size, pace, accommodation, weather): that call
raises TypeError before the scheduler runs, the except catches it, and an
empty dict is stored under the key plan. -/
def call_tools_node (tools_needed : List String) (city : Option String)
    (beh : AdapterBehavior) : List (String × ToolResult) :=
  (if ("events") ∈ tools_needed ∧ cityTruthy city then
    [(("events"), ToolResult.events (match beh.events with
      | .ok es => es
      | .error _ => []))]
  else []) ++
  (if ("weather") ∈ tools_needed ∧ cityTruthy city then
    [(("weather"), ToolResult.weather (match beh.weather with
      | .ok w => some w
      | .error _ => none))]
  else []) ++
  (if ("attractions") ∈ tools_needed ∧ cityTruthy city then
    [(("attractions"), ToolResult.attractions (match beh.attractions with
      | .ok as => as
      | .error _ => []))]
  else []) ++
  (if ("recommendations") ∈ tools_needed ∧ cityTruthy city then
    [(("recommendations"), ToolResult.recommendations
      (match beh.recommendations with
        | .ok rs => rs
        | .error _ => []))]
  else []) ++
  (if ("planner") ∈ tools_needed ∧ cityTruthy city then
    [(("plan"), ToolResult.plan none)]
  else [])

/-- The key under which a required tool's result is recorded: the tool
name, except the planner whose result goes under plan. -/
def toolKey (tool : String) : String :=
  if tool = "planner" then ("plan") else tool

/-! ## Model router (model_router.py)

Environment overrides absent: the model names are the os.getenv
defaults.  ChatVertexAI construction is external I/O; the router's
decision (which model name is selected) is what we model. -/

def flash_model : String := "gemini-1.5-flash"

def pro_model : String := "gemini-1.5-pro"

/-- agent_defaults lookup with the flash fallback. -/
def agent_default_model (agent_type : String) : String :=
  if agent_type = "explore" then flash_model
  else if agent_type = "itinerary" then pro_model
  else if agent_type = "packing" then flash_model
  else if agent_type = "tips" then flash_model
  else if agent_type = "events" then flash_model
  else if agent_type = "formatter" then flash_model
  else if agent_type = "pdf" then flash_model
  else flash_model

/-- ModelRouter.estimate_tokens: len(text) // 4. -/
def estimate_tokens (text : String) : Nat :=
  text.length / 4

/-- The escalation signals of should_escalate_to_pro with the source's
keyword defaults. -/
structure EscalationSignals where
  prompt_text : String := ""
  cities : Int := 1
  date_span_days : Int := 1
  tool_chain_length : Int := 1
  has_images : Bool := false
  previous_error : Option String := none
deriving Repr

def escalation_error_types : List String :=
  [ "context too large", "safety block", "tool schema too complex" ]

/-- ModelRouter.should_escalate_to_pro.  The previous_error guard is the
Python truthiness test (None and the empty string are falsy) followed by
a lowercased substring test against the known failure classes. -/
def should_escalate_to_pro (agent_type : String)
    (s : EscalationSignals) : Bool :=
  (match s.previous_error with
    | some err =>
      decide (err ≠ "") &&
        escalation_error_types.any (fun t => strContains t (strLower err))
    | none => false) ||
  decide (40000 < estimate_tokens s.prompt_text) ||
  decide (2 < s.cities) ||
  decide (5 < s.date_span_days) ||
  decide (3 < s.tool_chain_length) ||
  s.has_images

/-- ModelRouter.get_model_for_agent, reduced to the selected model name:
the pro model when escalation fires, the agent default otherwise. -/
def get_model_for_agent (agent_type : String)
    (s : EscalationSignals) : String :=
  if should_escalate_to_pro agent_type s then pro_model
  else agent_default_model agent_type

/-! ## Unfolding lemmas (definitional equalities of the scheduler) -/

lemma create_itinerary_days (city : String) (s e : Date)
    (interests : List String) (budget : ℚ) (g : Int) (pace acc : String)
    (w : Option WeatherData) :
    (create_itinerary city s e interests budget g pace acc w).days =
      (List.range (calculate_duration s e).toNat).map (fun i =>
        plan_day city (i + 1) (s.toRataDie + i)
          (get_available_activities city interests budget) budget g pace
          w) := rfl

lemma create_itinerary_total_cost (city : String) (s e : Date)
    (interests : List String) (budget : ℚ) (g : Int) (pace acc : String)
    (w : Option WeatherData) :
    (create_itinerary city s e interests budget g pace acc w).total_cost =
      (create_itinerary city s e interests budget g pace acc
        w).days.foldl (fun acc d => acc + d.total_cost) 0 := rfl

lemma plan_day_activities (city : String) (day : Nat) (date : Int)
    (activities : List Activity) (budget : ℚ) (g : Int) (pace : String)
    (w : Option WeatherData) :
    (plan_day city day date activities budget g pace w).activities =
      schedule_activities (select_activities_for_day activities
        (get_max_activities_for_pace pace) budget w) := rfl

lemma plan_day_total_cost (city : String) (day : Nat) (date : Int)
    (activities : List Activity) (budget : ℚ) (g : Int) (pace : String)
    (w : Option WeatherData) :
    (plan_day city day date activities budget g pace w).total_cost =
      calculate_day_cost
        (plan_day city day date activities budget g pace w).activities
        (plan_day city day date activities budget g pace w).meals
        (plan_day city day date activities budget g pace w).transport
        g := rfl

/-! ## Scheduler lemmas -/

/-- Every activity the greedy selection loop accepts passed the weather
compatibility test. -/
lemma select_from_weather_compatible (w : Option WeatherData) (m : Nat) :
    ∀ (l : List Activity) (count : Nat) (remaining : ℚ) (a : Activity),
      a ∈ select_from w m l count remaining →
      is_weather_compatible a w = true := by
  intro l
  induction l with
  | nil =>
    intro count remaining a ha
    simp [select_from] at ha
  | cons b rest ih =>
    intro count remaining a ha
    simp only [select_from] at ha
    by_cases h1 : m ≤ count
    · rw [if_pos h1] at ha
      simp at ha
    · rw [if_neg h1] at ha
      by_cases h2 :
          (decide (b.cost ≤ remaining) && is_weather_compatible b w) = true
      · rw [if_pos h2] at ha
        rcases List.mem_cons.1 ha with rfl | ha2
        · simp only [Bool.and_eq_true] at h2
          exact h2.2
        · exact ih _ _ _ ha2
      · rw [if_neg h2] at ha
        exact ih _ _ _ ha

/-- Every scheduled activity carries the category (and cost) of some
activity of the list being scheduled. -/
lemma schedule_from_source : ∀ (l : List Activity) (t : Nat)
    (sa : ScheduledActivity), sa ∈ schedule_from l t →
    ∃ a, a ∈ l ∧ sa.category = a.category ∧ sa.cost = a.cost := by
  intro l
  induction l with
  | nil =>
    intro t sa hsa
    simp [schedule_from] at hsa
  | cons b rest ih =>
    intro t sa hsa
    simp only [schedule_from] at hsa
    rcases List.mem_cons.1 hsa with rfl | h
    · exact ⟨b, List.mem_cons_self b rest, rfl, rfl⟩
    · obtain ⟨a, ha, hc, hco⟩ := ih _ _ h
      exact ⟨a, List.mem_cons_of_mem _ ha, hc, hco⟩

/-- In bad weather (rain or snow in the condition, or temperature out of
the 5..35 range) a weather-compatible activity is not outdoor. -/
lemma compatible_not_outdoor (wd : WeatherData) (a : Activity)
    (hbad : strContains ("rain") (strLower (wd.condition.getD (""))) = true ∨
      strContains ("snow") (strLower (wd.condition.getD (""))) = true ∨
      wd.temperature.getD 20 < 5 ∨ 35 < wd.temperature.getD 20)
    (hcompat : is_weather_compatible a (some wd) = true) :
    a.category ≠ "outdoor" := by
  intro hcat
  simp only [is_weather_compatible, hcat, if_true] at hcompat
  rcases hbad with h | h | h | h
  · simp [h] at hcompat
  · simp [h] at hcompat
  · have h2 : decide (wd.temperature.getD 20 < 5) = true := decide_eq_true h
    simp [h2] at hcompat
  · have h2 : decide (35 < wd.temperature.getD 20) = true := decide_eq_true h
    simp [h2] at hcompat

/-! ## Claim theorems: itinerary scheduler -/

/-- C5: for every trip whose well-formed date range spans N days (end on
or after start), create_itinerary returns exactly N day plans, one per
calendar day (the day plans carry consecutive serial dates starting at
the start date), for every candidate pool the budget and interests
produce, including an empty one. -/
theorem C5_day_plan_count (city : String) (s e : Date)
    (interests : List String) (budget : ℚ) (g : Int) (pace acc : String)
    (w : Option WeatherData) (h : s.toRataDie ≤ e.toRataDie) :
    (create_itinerary city s e interests budget g pace acc w).days.length =
      (e.toRataDie - s.toRataDie + 1).toNat ∧
    (create_itinerary city s e interests budget g pace acc w).days.map
        DayPlan.date =
      (List.range (e.toRataDie - s.toRataDie + 1).toNat).map
        (fun i => s.toRataDie + Int.ofNat i) := by
  constructor
  · rw [create_itinerary_days, List.length_map, List.length_range]
    rfl
  · rw [create_itinerary_days, List.map_map]
    rfl

/-- C5 witness: a concrete 3-day trip with an empty candidate pool
(budget below every activity cost rules the whole pool out). -/
theorem C5_witness :
    (Date.toRataDie ⟨2025, 1, 1⟩ ≤ Date.toRataDie ⟨2025, 1, 3⟩) ∧
    ((create_itinerary ("Toronto") ⟨2025, 1, 1⟩ ⟨2025, 1, 3⟩ [] (-1) 2
        ("moderate") ("mid-range") none).days.length =
      (Date.toRataDie ⟨2025, 1, 3⟩ - Date.toRataDie ⟨2025, 1, 1⟩ + 1).toNat ∧
     (create_itinerary ("Toronto") ⟨2025, 1, 1⟩ ⟨2025, 1, 3⟩ [] (-1) 2
        ("moderate") ("mid-range") none).days.map DayPlan.date =
      (List.range (Date.toRataDie ⟨2025, 1, 3⟩ -
          Date.toRataDie ⟨2025, 1, 1⟩ + 1).toNat).map
        (fun i => Date.toRataDie ⟨2025, 1, 1⟩ + Int.ofNat i)) :=
  ⟨by decide,
   C5_day_plan_count ("Toronto") ⟨2025, 1, 1⟩ ⟨2025, 1, 3⟩ [] (-1) 2
     ("moderate") ("mid-range") none (by decide)⟩

/-- C6: in every itinerary the scheduler produces, each day plan's total
cost is the sum of its activity costs plus its meal costs plus its
transport costs scaled by group size, and the trip total cost is the sum
of the day plan totals. -/
theorem C6_cost_accounting (city : String) (s e : Date)
    (interests : List String) (budget : ℚ) (g : Int) (pace acc : String)
    (w : Option WeatherData) :
    ((create_itinerary city s e interests budget g pace acc w).days.all
      (fun d => decide (d.total_cost =
        (d.activities.map ScheduledActivity.cost).sum +
        (d.meals.map Meal.cost).sum +
        (d.transport.map TransportLeg.cost).sum * (g : ℚ)))) = true ∧
    (create_itinerary city s e interests budget g pace acc w).total_cost =
      ((create_itinerary city s e interests budget g pace acc w).days.map
        DayPlan.total_cost).sum := by
  constructor
  · rw [List.all_eq_true]
    intro d hd
    rw [create_itinerary_days] at hd
    obtain ⟨i, _, rfl⟩ := List.mem_map.1 hd
    rw [decide_eq_true_eq, plan_day_total_cost]
    rfl
  · rw [create_itinerary_total_cost, List.sum_eq_foldl, List.foldl_map]

/-- C10: the candidate pool is never consumed across days: every day of
one itinerary holds the same scheduled-activity list, namely the schedule
of the greedy selection from the (day-independent) pool under the single
weather record. -/
theorem C10_same_activities_every_day (city : String) (s e : Date)
    (interests : List String) (budget : ℚ) (g : Int) (pace acc : String)
    (w : Option WeatherData) :
    (create_itinerary city s e interests budget g pace acc w).days.map
        DayPlan.activities =
      List.replicate
        (create_itinerary city s e interests budget g pace acc
          w).days.length
        (schedule_activities (select_activities_for_day
          (get_available_activities city interests budget)
          (get_max_activities_for_pace pace) budget w)) := by
  rw [List.eq_replicate_iff]
  constructor
  · rw [List.length_map]
  · intro b hb
    rw [create_itinerary_days, List.map_map] at hb
    obtain ⟨i, _, rfl⟩ := List.mem_map.1 hb
    rfl

/-- C7: when the single weather record is present and bad — its condition
contains rain or snow (case-insensitively), or its temperature (default
20) is below 5 or above 35 — no outdoor-category activity appears among
any day plan's scheduled activities. -/
theorem C7_no_outdoor_in_bad_weather (city : String) (s e : Date)
    (interests : List String) (budget : ℚ) (g : Int) (pace acc : String)
    (wd : WeatherData)
    (hbad : strContains ("rain") (strLower (wd.condition.getD (""))) = true ∨
      strContains ("snow") (strLower (wd.condition.getD (""))) = true ∨
      wd.temperature.getD 20 < 5 ∨ 35 < wd.temperature.getD 20) :
    ((create_itinerary city s e interests budget g pace acc
        (some wd)).days.all (fun d => d.activities.all
          (fun a => decide (a.category ≠ "outdoor")))) = true := by
  rw [List.all_eq_true]
  intro d hd
  rw [List.all_eq_true]
  intro sa hsa
  rw [decide_eq_true_eq]
  rw [create_itinerary_days] at hd
  obtain ⟨i, _, rfl⟩ := List.mem_map.1 hd
  rw [plan_day_activities] at hsa
  have hsa2 : sa ∈ schedule_from (select_activities_for_day
      (get_available_activities city interests budget)
      (get_max_activities_for_pace pace) budget (some wd))
      day_start_minutes := hsa
  obtain ⟨a, ha, hcat, _⟩ := schedule_from_source _ _ _ hsa2
  have ha2 : a ∈ select_from (some wd)
      (get_max_activities_for_pace pace)
      (sort_by_rating_desc (get_available_activities city interests budget))
      0 budget := ha
  have hcompat := select_from_weather_compatible (some wd) _ _ _ _ _ ha2
  rw [hcat]
  exact compatible_not_outdoor wd a hbad hcompat

/-- C7 witness: a rainy two-day trip; the hypothesis holds and the pool
contains an outdoor candidate (Central Park), which is excluded. -/
theorem C7_witness :
    (strContains ("rain")
        (strLower ((WeatherData.mk (some ("Rain")) none).condition.getD
          (""))) = true ∨
      strContains ("snow")
        (strLower ((WeatherData.mk (some ("Rain")) none).condition.getD
          (""))) = true ∨
      (WeatherData.mk (some ("Rain")) none).temperature.getD 20 < 5 ∨
      35 < (WeatherData.mk (some ("Rain")) none).temperature.getD 20) ∧
    ((create_itinerary ("Toronto") ⟨2025, 6, 1⟩ ⟨2025, 6, 2⟩ [] 1000 2
        ("relaxed") ("mid-range")
        (some (WeatherData.mk (some ("Rain")) none))).days.all
      (fun d => d.activities.all
        (fun a => decide (a.category ≠ "outdoor")))) = true :=
  ⟨Or.inl (by decide),
   C7_no_outdoor_in_bad_weather ("Toronto") ⟨2025, 6, 1⟩ ⟨2025, 6, 2⟩ []
     1000 2 ("relaxed") ("mid-range") (WeatherData.mk (some ("Rain")) none)
     (Or.inl (by decide))⟩

/-- C1 counterexample: for the 3-day trip with budget 0 and pace
moderate (no interests, no weather record), it is false that every day
plan has no activities and a meals-only total cost: the two zero-cost
sample activities pass the budget filter and a transit leg is charged. -/
theorem C1_counterexample :
    ¬ (∀ d ∈ (create_itinerary ("Toronto") ⟨2025, 1, 1⟩ ⟨2025, 1, 3⟩ [] 0 1
        ("moderate") ("mid-range") none).days,
      d.activities = [] ∧ d.total_cost = (d.meals.map Meal.cost).sum) := by
  with_unfolding_all decide

/-- C1 as amended: the 3-day budget-0 moderate trip has 3 day plans; each
day plan has exactly 3 meal slots, and carries the two zero-cost sample
activities (Central Park, Shopping District) — zero-cost candidates pass
the budget filter even at budget 0 — so its total cost is the meal cost
(75 per person) plus the one public-transit leg cost scaled by group
size, 78.5 for one person, not the meals-only 75. -/
theorem C1_budget_zero_day_plans :
    ((create_itinerary ("Toronto") ⟨2025, 1, 1⟩ ⟨2025, 1, 3⟩ [] 0 1
        ("moderate") ("mid-range") none).days.map (fun d =>
      (d.activities.map ScheduledActivity.name,
       d.activities.map ScheduledActivity.cost,
       d.meals.length, d.total_cost))) =
      [([("Central Park"), ("Shopping District")], [0, 0], 3, 157/2),
       ([("Central Park"), ("Shopping District")], [0, 0], 3, 157/2),
       ([("Central Park"), ("Shopping District")], [0, 0], 3, 157/2)] ∧
    (create_itinerary ("Toronto") ⟨2025, 1, 1⟩ ⟨2025, 1, 3⟩ [] 0 1
        ("moderate") ("mid-range") none).total_cost = 471/2 := by
  constructor
  · with_unfolding_all decide
  · with_unfolding_all decide

/-! ## Classifier and dispatch lemmas -/

/-- titlecase of a nonempty string is nonempty. -/
lemma titlecase_ne_empty (x : String) (hx : x ≠ "") : titlecase x ≠ "" := by
  intro h
  apply hx
  have hg : titlecaseGo false x.data = [] := by
    have hd : (titlecase x).data = ("" : String).data := by rw [h]
    simpa [titlecase] using hd
  cases hxd : x.data with
  | nil => exact String.ext (hxd.trans rfl)
  | cons c cs =>
    rw [hxd] at hg
    simp [titlecaseGo] at hg

/-- A detected city name is never the empty string (the gazetteer holds
no empty entry and titlecase preserves nonemptiness). -/
lemma detect_city_ne_empty (m c : String)
    (h : detect_city_from_message m = some c) : c ≠ "" := by
  have h2 : ∃ x, (canadian_cities.find?
      (fun city => strContains city (strLower m))) = some x ∧
      titlecase x = c := by
    simpa [detect_city_from_message, Option.map_eq_some'] using h
  obtain ⟨x, hfind, rfl⟩ := h2
  have hmem : x ∈ canadian_cities := List.mem_of_find?_eq_some hfind
  have hx : x ≠ "" := by
    have hall : ∀ y ∈ canadian_cities, y ≠ "" := by decide
    exact hall x hmem
  exact titlecase_ne_empty x hx

/-- The classifier only ever requires the five known tools. -/
lemma analyze_intent_tools_mem (m t : String)
    (ht : t ∈ (analyze_intent m).tools_needed) :
    t = "events" ∨ t = "weather" ∨ t = "attractions" ∨ t = "planner" ∨
      t = "recommendations" := by
  by_cases h1 : event_keywords.any
      (fun w => strContains w (strLower m)) = true <;>
  by_cases h2 : weather_keywords.any
      (fun w => strContains w (strLower m)) = true <;>
  by_cases h3 : attraction_keywords.any
      (fun w => strContains w (strLower m)) = true <;>
  by_cases h4 : planning_keywords.any
      (fun w => strContains w (strLower m)) = true <;>
  by_cases h5 : recommendation_keywords.any
      (fun w => strContains w (strLower m)) = true <;>
  simp_all [analyze_intent] <;>
  (try split at ht) <;> (try simp_all) <;> (try tauto)

/-- A key present among a lookup list's keys is found by lookup. -/
lemma lookup_ne_none_of_mem_keys :
    ∀ (l : List (String × ToolResult)) (k : String),
      k ∈ l.map Prod.fst → l.lookup k ≠ none := by
  intro l
  induction l with
  | nil =>
    intro k hk
    simp at hk
  | cons p rest ih =>
    obtain ⟨pk, pv⟩ := p
    intro k hk
    simp only [List.map_cons, List.mem_cons] at hk
    by_cases hb : k = pk
    · subst hb
      simp [List.lookup]
    · have h2 : k ∈ rest.map Prod.fst := by
        rcases hk with h | h
        · exact absurd h hb
        · exact h
      have hbeq : (k == pk) = false := beq_eq_false_iff_ne.2 hb
      simp only [List.lookup, hbeq]
      exact ih k h2

/-- Lookup skips a left part none of whose keys is the one sought. -/
lemma lookup_append_of_keys_ne (l1 l2 : List (String × ToolResult))
    (k : String) (h : ∀ p ∈ l1, p.1 ≠ k) :
    (l1 ++ l2).lookup k = l2.lookup k := by
  induction l1 with
  | nil => simp
  | cons p rest ih =>
    obtain ⟨pk, pv⟩ := p
    have hpk : pk ≠ k := h (pk, pv) (List.mem_cons_self _ _)
    have hbeq : (k == pk) = false := beq_eq_false_iff_ne.2 (Ne.symm hpk)
    simp only [List.cons_append, List.lookup, hbeq]
    exact ih (fun q hq => h q (List.mem_cons_of_mem _ hq))

/-- Membership in a conditional singleton pins the element down. -/
lemma mem_ite_singleton {α : Type} {c : Prop} [Decidable c] {x p : α}
    (h : p ∈ (if c then [x] else [])) : p = x := by
  split at h
  · simpa using h
  · simp at h

/-- An all-successful adapter behavior, for concrete runs. -/
def beh_ok : AdapterBehavior :=
  { events := Except.ok [], weather := Except.ok (("", "")),
    attractions := Except.ok [], recommendations := Except.ok [] }

/-! ## Claim theorems: classifier, dispatch and model router -/

/-- C2 counterexample: the classifier does not return events_inquiry for
the Toronto weekend message: the word weekend also matches the planner
category, which is evaluated after events and overwrites the intent. -/
theorem C2_counterexample :
    ¬ ((analyze_intent
        ("What events are happening in Toronto this weekend?")).intent =
      "events_inquiry") := by
  decide

/-- C2 as amended: for the message about events in Toronto this weekend,
the classifier detects city Toronto and requires the events collaborator
(and also the planner, since weekend matches the planning keywords), but
the final intent is planning_inquiry — the last matching category in the
fixed evaluation order wins. -/
theorem C2_intent_toronto_weekend :
    analyze_intent ("What events are happening in Toronto this weekend?") =
      { intent := "planning_inquiry",
        tools_needed := [("events"), ("planner")],
        city_detected := some ("Toronto") } := by
  decide

/-- C3 counterexample: a run whose message names no recognized city: the
events collaborator is required, yet the gather stage records nothing for
it (every branch is gated on a detected city). -/
theorem C3_counterexample :
    ("events" ∈ (analyze_intent
        ("What events are happening this weekend?")).tools_needed) ∧
    (call_tools_node
        (analyze_intent
          ("What events are happening this weekend?")).tools_needed
        (analyze_intent
          ("What events are happening this weekend?")).city_detected
        beh_ok).lookup ("events") = none := by
  constructor
  · decide
  · decide

/-- C3 as amended: for every run in which the classifier detected a
city, the gather stage records a result for every required collaborator
— an empty or fallback value when that adapter fails — in the results
map, keyed by the collaborator name except the planner, whose result is
stored under the key plan. -/
theorem C3_results_recorded_with_city (message c : String)
    (beh : AdapterBehavior)
    (hcity : (analyze_intent message).city_detected = some c) :
    ∀ t ∈ (analyze_intent message).tools_needed,
      (call_tools_node (analyze_intent message).tools_needed
        (analyze_intent message).city_detected beh).lookup (toolKey t) ≠
        none := by
  intro t ht
  have hcd : detect_city_from_message message = some c := hcity
  have hne : c ≠ "" := detect_city_ne_empty message c hcd
  have htruthy : cityTruthy (analyze_intent message).city_detected = true := by
    rw [hcity]
    exact decide_eq_true hne
  apply lookup_ne_none_of_mem_keys
  rcases analyze_intent_tools_mem message t ht with rfl | rfl | rfl | rfl | rfl
  all_goals
    simp [call_tools_node, toolKey, List.map_append, ht, htruthy]

/-- C3 witness: a concrete planning run with a detected city; the
planner's entry is recorded (under the key plan). -/
theorem C3_witness :
    ((analyze_intent ("Plan a trip to Toronto")).city_detected =
      some ("Toronto")) ∧
    (("planner") ∈ (analyze_intent ("Plan a trip to Toronto")).tools_needed) ∧
    (call_tools_node (analyze_intent ("Plan a trip to Toronto")).tools_needed
      (analyze_intent ("Plan a trip to Toronto")).city_detected
      beh_ok).lookup (toolKey ("planner")) ≠ none :=
  ⟨by decide, by decide,
   C3_results_recorded_with_city ("Plan a trip to Toronto") ("Toronto")
     beh_ok (by decide) ("planner") (by decide)⟩

/-- C4: whenever the planner is required and a city is present, the
gather stage stores the empty dict under the key plan — never an
itinerary: the call to create_itinerary passes keyword arguments (city,
duration, budget, interests) that do not match its signature, so it
raises TypeError before the scheduler runs and the except stores the
empty fallback. -/
theorem C4_plan_stored_empty (tools : List String) (city : Option String)
    (c : String) (beh : AdapterBehavior) (hc : city = some c)
    (hne : c ≠ "") (hp : ("planner") ∈ tools) :
    (call_tools_node tools city beh).lookup ("plan") =
      some (ToolResult.plan none) := by
  subst hc
  have htruthy : cityTruthy (some c) = true := decide_eq_true hne
  simp only [call_tools_node]
  rw [lookup_append_of_keys_ne]
  · rw [if_pos ⟨hp, htruthy⟩]
    simp [List.lookup]
  · intro p hmem
    rcases List.mem_append.1 hmem with h | h
    · rcases List.mem_append.1 h with h | h
      · rcases List.mem_append.1 h with h | h
        · rw [mem_ite_singleton h]
          simp
        · rw [mem_ite_singleton h]
          simp
      · rw [mem_ite_singleton h]
        simp
    · rw [mem_ite_singleton h]
      simp

/-- C4 witness: a concrete planning run with a detected city; the value
stored under plan is the empty dict, not an itinerary. -/
theorem C4_witness :
    ((some ("Toronto") : Option String) = some ("Toronto")) ∧
    (("Toronto" : String) ≠ "") ∧
    (("planner") ∈ [("planner")]) ∧
    (call_tools_node [("planner")] (some ("Toronto")) beh_ok).lookup
        ("plan") = some (ToolResult.plan none) :=
  ⟨rfl, by decide, by decide,
   C4_plan_stored_empty [("planner")] (some ("Toronto")) ("Toronto") beh_ok
     rfl (by decide) (by decide)⟩

/-- C8: the escalation predicate fires exactly when one of the listed
signals holds — estimated tokens (length/4) above 40000, more than 2
cities, a date span over 5 days, a tool chain longer than 3, multimodal
content, or a previous error whose lowercased text contains one of the
known failure classes — and whenever it fires the router returns the pro
model regardless of the agent role. -/
theorem C8_escalation_policy (agent_type : String)
    (s : EscalationSignals) :
    (should_escalate_to_pro agent_type s = true ↔
      (40000 < estimate_tokens s.prompt_text ∨ 2 < s.cities ∨
       5 < s.date_span_days ∨ 3 < s.tool_chain_length ∨
       s.has_images = true ∨
       (∃ err, s.previous_error = some err ∧
         (strContains ("context too large") (strLower err) = true ∨
          strContains ("safety block") (strLower err) = true ∨
          strContains ("tool schema too complex") (strLower err) =
            true)))) ∧
    (should_escalate_to_pro agent_type s = true →
      get_model_for_agent agent_type s = pro_model) := by
  constructor
  · rw [should_escalate_to_pro]
    cases hprev : s.previous_error with
    | none =>
      simp [escalation_error_types]
      tauto
    | some err =>
      by_cases he : err = ""
      · subst he
        simp [escalation_error_types]
        have hc1 : ¬ (strContains ("context too large") (strLower "") =
            true) := by decide
        have hc2 : ¬ (strContains ("safety block") (strLower "") =
            true) := by decide
        have hc3 : ¬ (strContains ("tool schema too complex")
            (strLower "") = true) := by decide
        tauto
      · simp [escalation_error_types, he]
        tauto
  · intro h
    rw [get_model_for_agent, if_pos h]

end Cantrip
